import Mathlib

/-!
Verification of the background orchestrator of the Squash browser activity
recorder (service worker `sw.ts`, analysis backends `ai.ts` / `remote-ai.ts`,
and the pattern detector).  Each definition below is a shallow embedding of the
corresponding TypeScript function; theorems settle the specification claims
about them.
-/

/-- Shallow embedding of the `RawEvent` union of `types.ts`.  The orchestrator
only inspects the `type` tag, the `action` field of `mark`/`tab` events and the
timestamp `t`; all remaining kind-specific fields are opaque to it and are
collapsed into the `payload` string. -/
structure RawEvent where
  type : String
  action : String
  t : Int
  payload : String
deriving DecidableEq, Repr, Inhabited

/-- `MAX_EVENTS` constant of `sw.ts` (ring buffer capacity). -/
def MAX_EVENTS : Nat := 10000

/-- Buffer update performed by `push` in `sw.ts`:
`ring.push(...events); if (ring.length > MAX_EVENTS) ring = ring.slice(-MAX_EVENTS);`
(`slice(-n)` keeps the last `n` entries, i.e. drops `length - n` from the front). -/
def pushRing (ring : List RawEvent) (events : List RawEvent) : List RawEvent :=
  if (ring ++ events).length > MAX_EVENTS
  then (ring ++ events).drop ((ring ++ events).length - MAX_EVENTS)
  else ring ++ events

/-- The buffer contents after a whole sequence of `Append` (`push`) calls,
starting from the empty boot-time buffer. -/
def appendAll (batches : List (List RawEvent)) : List RawEvent :=
  batches.foldl pushRing []

theorem pushRing_eq_rtake (ring events : List RawEvent) :
    pushRing ring events = (ring ++ events).rtake MAX_EVENTS := by
  unfold pushRing List.rtake
  split
  · rfl
  · next h =>
    have h0 : (ring ++ events).length - MAX_EVENTS = 0 := by omega
    rw [h0, List.drop_zero]

theorem take_append_take {α : Type} (a b : List α) (n : Nat) :
    (a ++ b.take n).take n = (a ++ b).take n := by
  rw [List.take_append_eq_append_take, List.take_append_eq_append_take, List.take_take]
  have : min (n - a.length) n = n - a.length := Nat.min_eq_left (Nat.sub_le n a.length)
  rw [this]

theorem rtake_append_rtake {α : Type} (a b : List α) (n : Nat) :
    (a.rtake n ++ b).rtake n = (a ++ b).rtake n := by
  rw [List.rtake_eq_reverse_take_reverse (a.rtake n ++ b) n,
    List.rtake_eq_reverse_take_reverse (a ++ b) n,
    List.rtake_eq_reverse_take_reverse a n]
  rw [List.reverse_append, List.reverse_reverse, List.reverse_append]
  rw [take_append_take]

theorem appendAll_loop (batches : List (List RawEvent)) (acc : List RawEvent) :
    batches.foldl pushRing (acc.rtake MAX_EVENTS) =
      (acc ++ batches.flatten).rtake MAX_EVENTS := by
  induction batches generalizing acc with
  | nil => rw [List.foldl_nil, List.flatten_nil, List.append_nil]
  | cons b bs ih =>
    rw [List.foldl_cons, pushRing_eq_rtake, rtake_append_rtake]
    rw [ih (acc ++ b)]
    rw [List.flatten_cons, List.append_assoc]

/-- C2 : for every sequence of `Append` calls with capacity `C = 10000`, the
buffer length never exceeds `C` (every prefix of the sequence is itself such a
sequence, so this bounds the length at all times), and after the sequence the
buffer holds exactly the most recently appended `min(total, C)` events in
append order (the `rtake` of the concatenation of all batches). -/
theorem c2_ring_buffer_bound (batches : List (List RawEvent)) :
    (appendAll batches).length ≤ MAX_EVENTS ∧
      appendAll batches = batches.flatten.rtake MAX_EVENTS ∧
      (appendAll batches).length = min batches.flatten.length MAX_EVENTS := by
  have hmain : appendAll batches = batches.flatten.rtake MAX_EVENTS := by
    have h0 : ([] : List RawEvent) = ([] : List RawEvent).rtake MAX_EVENTS :=
      (List.rtake_nil MAX_EVENTS).symm
    unfold appendAll
    rw [h0, appendAll_loop, List.nil_append]
  have hlen : (batches.flatten.rtake MAX_EVENTS).length =
      min batches.flatten.length MAX_EVENTS := by
    unfold List.rtake
    rw [List.length_drop]
    omega
  refine ⟨?_, hmain, ?_⟩
  · rw [hmain, hlen]; omega
  · rw [hmain, hlen]

/-- `WorkflowMode` of `sw.ts`. -/
inductive WorkflowMode where
  | idle
  | manual_recording
  | ambient_active
deriving DecidableEq, Repr

/-- The payload of a `mark` message (`'start' | 'stop'`). -/
inductive MarkAction where
  | start
  | stop
deriving DecidableEq, Repr

def MarkAction.str : MarkAction → String
  | .start => "start"
  | .stop => "stop"

/-- `WorkflowMarkers` of `types.ts`; the optional TS fields become `Option`. -/
structure WorkflowMarkers where
  startIndex : Nat
  startTime : Int
  endIndex : Option Nat
  endTime : Option Int
deriving DecidableEq, Repr

/-- The mutable module-level state of `sw.ts` that the claims concern:
the ring buffer, the single `currentWorkflow` slot, the `WorkflowManager`
mode and its `lastAmbientCheck` guard timestamp. -/
structure OrchState where
  ring : List RawEvent
  currentWorkflow : Option WorkflowMarkers
  mode : WorkflowMode
  lastAmbientCheck : Int
deriving DecidableEq, Repr

/-- `WorkflowManager.startManualRecording`: stops ambient detection and sets
`mode = 'manual_recording'`, from any state. -/
def startManualRecording (_m : WorkflowMode) : WorkflowMode :=
  WorkflowMode.manual_recording

/-- `WorkflowManager.stopManualRecording`: sets `mode = 'idle'` and arms the
5 s resume timer. -/
def stopManualRecording (_m : WorkflowMode) : WorkflowMode :=
  WorkflowMode.idle

/-- `WorkflowManager.startAmbientDetection`: enters `'ambient_active'` unless
currently `'manual_recording'`. -/
def startAmbientDetection (m : WorkflowMode) : WorkflowMode :=
  if m = WorkflowMode.manual_recording then m else WorkflowMode.ambient_active

/-- Body of the resume `setTimeout` callback in `stopManualRecording`:
`if (this.mode === 'idle') this.startAmbientDetection()`. -/
def resumeTimerFire (m : WorkflowMode) : WorkflowMode :=
  if m = WorkflowMode.idle then startAmbientDetection m else m

/-- The three stimuli that drive the mode state machine. -/
inductive ModeEvent where
  | start
  | stop
  | resumeFire
deriving DecidableEq, Repr

def modeStep (m : WorkflowMode) : ModeEvent → WorkflowMode
  | ModeEvent.start => startManualRecording m
  | ModeEvent.stop => stopManualRecording m
  | ModeEvent.resumeFire => resumeTimerFire m

/-- The mark event appended by `handleWorkflowMark`. -/
def mkMarkEvent (action : MarkAction) (now : Int) : RawEvent :=
  { type := "mark", action := action.str, t := now, payload := "" }

/-- `handleWorkflowMark` of `sw.ts` (lines 415-448): appends the mark event,
then on `start` switches the mode and overwrites `currentWorkflow` with a new
open window at the buffer tail; on `stop` with an open slot records the end
index/time and switches the mode; on `stop` with an empty slot nothing beyond
the push happens. -/
def handleWorkflowMark (action : MarkAction) (now : Int) (st : OrchState) : OrchState :=
  let ring1 := pushRing st.ring [mkMarkEvent action now]
  match action with
  | MarkAction.start =>
      { st with
        ring := ring1
        mode := startManualRecording st.mode
        currentWorkflow := some { startIndex := ring1.length - 1, startTime := now,
                                  endIndex := none, endTime := none } }
  | MarkAction.stop =>
      match st.currentWorkflow with
      | some wf =>
          { st with
            ring := ring1
            currentWorkflow := some { wf with endIndex := some (ring1.length - 1),
                                              endTime := some now }
            mode := stopManualRecording st.mode }
      | none => { st with ring := ring1 }

/-- The synchronous acknowledgement a command sender receives. -/
structure MsgResponse where
  success : Bool
  error : Option String
deriving DecidableEq, Repr

/-- The `'mark'` branch of the `onMessage` listener (`sw.ts` lines 224-229):
it calls `handleWorkflowMark` and answers `{ success: true }` unconditionally. -/
def onMessageMark (action : MarkAction) (now : Int) (st : OrchState) :
    OrchState × MsgResponse :=
  (handleWorkflowMark action now st, { success := true, error := none })

/-- An `evtBatch`/`nav`/`tab` delivery: `push(events)` touches only the ring. -/
def appendEvents (events : List RawEvent) (st : OrchState) : OrchState :=
  { st with ring := pushRing st.ring events }

/-- JavaScript `Array.prototype.slice(s, e)` for non-negative indices. -/
def jsSlice {α : Type} (l : List α) (s e : Nat) : List α :=
  (l.drop s).take (e - s)

/-- The slice `ring.slice(currentWorkflow.startIndex, currentWorkflow.endIndex + 1)`
handed to the analysis backend by `handleLocalAnalysis` / `handleRemoteAnalysis`;
`none` when no completed workflow is available. -/
def workflowSlice (st : OrchState) : Option (List RawEvent) :=
  match st.currentWorkflow with
  | some wf =>
      match wf.endIndex with
      | some e => some (jsSlice st.ring wf.startIndex (e + 1))
      | none => none
  | none => none

/-- `WorkflowManager.checkForPatterns` (`sw.ts` lines 97-113), the timer-driven
scan: returns the updated state and the events handed to
`detectRepetitivePattern` (`none` when the scan did not run).  It runs only in
ambient mode and self-guards against running twice within 60000 ms. -/
def checkForPatterns (now : Int) (st : OrchState) :
    OrchState × Option (List RawEvent) :=
  if st.mode ≠ WorkflowMode.ambient_active then (st, none)
  else if now - st.lastAmbientCheck < 60000 then (st, none)
  else ({ st with lastAmbientCheck := now }, some st.ring)

/-- The `'manualPatternCheck'` branch of `onMessage` (`sw.ts` lines 315-333):
it calls `detectRepetitivePattern(ring)` directly, with no mode check, no
guard-interval check and no update of `lastAmbientCheck`. -/
def manualPatternCheck (st : OrchState) : OrchState × Option (List RawEvent) :=
  (st, some st.ring)

/-- Outcome of the `'retryAnalysis'` branch of `onMessage` (`sw.ts` lines
239-247): the synchronous acknowledgement, the window dispatch is re-run
against, and how many analysis broadcasts the request causes (the success path
re-enters `handleWorkflowAnalysis`, which broadcasts exactly one result). -/
structure RetryOutcome where
  success : Bool
  error : Option String
  dispatched : Option WorkflowMarkers
  broadcasts : Nat
deriving DecidableEq, Repr

/-- `retryAnalysis` handler: succeeds iff `currentWorkflow` exists and its
`endIndex` is defined. -/
def retryAnalysis (st : OrchState) : RetryOutcome :=
  match st.currentWorkflow with
  | some wf =>
      if wf.endIndex.isSome then
        { success := true, error := none, dispatched := some wf, broadcasts := 1 }
      else
        { success := false, error := some "No workflow available to retry",
          dispatched := none, broadcasts := 0 }
  | none =>
      { success := false, error := some "No workflow available to retry",
        dispatched := none, broadcasts := 0 }

/-- The boot state of `sw.ts`: empty ring, no workflow, ambient mode,
`lastAmbientCheck = 0`. -/
def orchState0 : OrchState :=
  { ring := [], currentWorkflow := none, mode := WorkflowMode.ambient_active,
    lastAmbientCheck := 0 }

/-- A side-panel connection: `postMessage` to it throws iff `alive` is false. -/
structure Port where
  pid : Nat
  alive : Bool
deriving DecidableEq, Repr

/-- Fan-out loop of `push`, `broadcastModeChange` and `broadcastPatternDetected`
(`sw.ts` lines 341-354, 357-366, 369-378): `try { port.postMessage(...) }
catch { ports.delete(port) }` for each registered port.  Returns the set of
ports still registered afterwards and the ids the message reached. -/
def broadcastPrune : List Port → List Port × List Nat
  | [] => ([], [])
  | p :: rest =>
      let r := broadcastPrune rest
      if p.alive then (p :: r.1, p.pid :: r.2) else (r.1, r.2)

/-- Fan-out loop of `broadcastAnalysis` (`sw.ts` lines 557-565): the catch
block only logs the error and does not delete the port. -/
def broadcastAnalysisPorts : List Port → List Port × List Nat
  | [] => ([], [])
  | p :: rest =>
      let r := broadcastAnalysisPorts rest
      if p.alive then (p :: r.1, p.pid :: r.2) else (p :: r.1, r.2)

/-- A state whose `currentWorkflow` slot holds an open (not yet stopped)
window, used to exhibit the `MarkStart`-while-open behaviour. -/
def openWindowState : OrchState :=
  { ring := [mkMarkEvent MarkAction.start 1]
    currentWorkflow := some { startIndex := 0, startTime := 1,
                              endIndex := none, endTime := none }
    mode := WorkflowMode.manual_recording
    lastAmbientCheck := 0 }

/-- C5 : the mode is always exactly one of the three values; `start()` from any
state lands in `manual_recording`; `stop()` from `manual_recording` lands in
`idle`; the resume timer firing while still `idle` (no intervening `start()`)
lands in `ambient_active`, while after an intervening `start()` (mode
`manual_recording`) it changes nothing. -/
theorem c5_mode_machine :
    (∀ m : WorkflowMode,
        m = WorkflowMode.idle ∨ m = WorkflowMode.manual_recording ∨
          m = WorkflowMode.ambient_active) ∧
    (∀ m : WorkflowMode, modeStep m ModeEvent.start = WorkflowMode.manual_recording) ∧
    modeStep WorkflowMode.manual_recording ModeEvent.stop = WorkflowMode.idle ∧
    modeStep WorkflowMode.idle ModeEvent.resumeFire = WorkflowMode.ambient_active ∧
    modeStep WorkflowMode.manual_recording ModeEvent.resumeFire =
      WorkflowMode.manual_recording := by
  refine ⟨fun m => ?_, fun m => rfl, rfl, rfl, rfl⟩
  cases m
  · exact Or.inl rfl
  · exact Or.inr (Or.inl rfl)
  · exact Or.inr (Or.inr rfl)

/-- C3 counterexample: both misuses are silently accepted as successful no-ops
(window-wise) rather than rejected or flagged.  `MarkStop` with no open window
is acknowledged `success: true` with no error and leaves the window slot
empty, and `MarkStart` while a window is open is acknowledged `success: true`
with no error and silently replaces the open window with a fresh one. -/
theorem c3_counterexample :
    ((onMessageMark MarkAction.stop 7 orchState0).2.success = true ∧
      (onMessageMark MarkAction.stop 7 orchState0).2.error = none ∧
      (onMessageMark MarkAction.stop 7 orchState0).1.currentWorkflow = none) ∧
    ((onMessageMark MarkAction.start 9 openWindowState).2.success = true ∧
      (onMessageMark MarkAction.start 9 openWindowState).2.error = none ∧
      (onMessageMark MarkAction.start 9 openWindowState).1.currentWorkflow =
        some { startIndex := 1, startTime := 9, endIndex := none, endTime := none }) := by
  decide

/-- C3 amended: at most one window exists at any time because the tracker is a
single `currentWorkflow` slot, but neither misuse is rejected or flagged: the
`mark` handler acknowledges `{ success: true }` unconditionally, `MarkStop`
with no open window changes nothing besides appending the stray mark event,
and `MarkStart` with an open window silently overwrites it with a fresh open
window at the buffer tail. -/
theorem c3_mark_misuse_amended (stNone stOpen : OrchState) (now : Int)
    (wf : WorkflowMarkers)
    (hNone : stNone.currentWorkflow = none)
    (_hOpen : stOpen.currentWorkflow = some wf) :
    (onMessageMark MarkAction.stop now stNone).2 = { success := true, error := none } ∧
    (onMessageMark MarkAction.stop now stNone).1.currentWorkflow = none ∧
    (onMessageMark MarkAction.start now stOpen).2 = { success := true, error := none } ∧
    (onMessageMark MarkAction.start now stOpen).1.currentWorkflow =
      some { startIndex := (pushRing stOpen.ring [mkMarkEvent MarkAction.start now]).length - 1,
             startTime := now, endIndex := none, endTime := none } := by
  refine ⟨rfl, ?_, rfl, rfl⟩
  simp only [onMessageMark, handleWorkflowMark, hNone]

/-- C3 amended witness at the concrete states `orchState0` (no window) and
`openWindowState` (open window). -/
theorem c3_mark_misuse_amended_witness :
    (onMessageMark MarkAction.stop 7 orchState0).2 = { success := true, error := none } ∧
    (onMessageMark MarkAction.stop 7 orchState0).1.currentWorkflow = none ∧
    (onMessageMark MarkAction.start 7 openWindowState).2 = { success := true, error := none } ∧
    (onMessageMark MarkAction.start 7 openWindowState).1.currentWorkflow =
      some { startIndex := (pushRing openWindowState.ring
                [mkMarkEvent MarkAction.start 7]).length - 1,
             startTime := 7, endIndex := none, endTime := none } :=
  c3_mark_misuse_amended orchState0 openWindowState 7
    { startIndex := 0, startTime := 1, endIndex := none, endTime := none }
    (by decide) (by decide)

/-- C4 counterexample: the scan executes twice with no delay at all between the
two runs.  A timer check at `t = 10000000` runs, and a manual trigger issued
immediately afterwards runs again (the manual handler calls
`detectRepetitivePattern` directly, bypassing the guard); likewise two manual
triggers in immediate succession both run. -/
theorem c4_counterexample :
    (checkForPatterns 10000000 orchState0).2.isSome = true ∧
    (manualPatternCheck (checkForPatterns 10000000 orchState0).1).2.isSome = true ∧
    (manualPatternCheck orchState0).2.isSome = true ∧
    (manualPatternCheck (manualPatternCheck orchState0).1).2.isSome = true := by
  decide

/-- C4 amended: only the timer path `checkForPatterns` is guarded: once a
guarded scan has run at `n1`, a second `checkForPatterns` within 60000 ms is a
silent no-op; but a `manualPatternCheck` always hands the ring to the detector
regardless of the guard window. -/
theorem c4_scan_guard_amended (st : OrchState) (n1 n2 : Int)
    (h1 : (checkForPatterns n1 st).2.isSome = true)
    (h2 : n2 - n1 < 60000) :
    (checkForPatterns n2 (checkForPatterns n1 st).1).2 = none ∧
    ∀ s : OrchState, (manualPatternCheck s).2 = some s.ring := by
  refine ⟨?_, fun s => rfl⟩
  unfold checkForPatterns at h1 ⊢
  by_cases hm : st.mode = WorkflowMode.ambient_active
  · by_cases hg : n1 - st.lastAmbientCheck < 60000
    · simp [hm, hg] at h1
    · simp [hm, hg, h2]
  · simp [hm] at h1

/-- C4 amended witness: a guarded scan at `t = 10000000` from the boot state,
followed by a timer check one millisecond later. -/
theorem c4_scan_guard_amended_witness :
    (checkForPatterns 10000001 (checkForPatterns 10000000 orchState0).1).2 = none ∧
    ∀ s : OrchState, (manualPatternCheck s).2 = some s.ring :=
  c4_scan_guard_amended orchState0 10000000 10000001 (by decide) (by decide)

/-- C6 counterexample: after `MarkStart, MarkStop, MarkStart` a window has been
closed (the state after the stop holds a window with a defined `endIndex`),
yet `retryAnalysis` reports failure and dispatches nothing, because the second
`MarkStart` overwrote the single `currentWorkflow` slot with a new open
window. -/
theorem c6_counterexample :
    (handleWorkflowMark MarkAction.stop 2
        (handleWorkflowMark MarkAction.start 1 orchState0)).currentWorkflow =
      some { startIndex := 0, startTime := 1, endIndex := some 1, endTime := some 2 } ∧
    (retryAnalysis (handleWorkflowMark MarkAction.start 3
        (handleWorkflowMark MarkAction.stop 2
          (handleWorkflowMark MarkAction.start 1 orchState0)))).success = false ∧
    (retryAnalysis (handleWorkflowMark MarkAction.start 3
        (handleWorkflowMark MarkAction.stop 2
          (handleWorkflowMark MarkAction.start 1 orchState0)))).dispatched = none ∧
    (retryAnalysis (handleWorkflowMark MarkAction.start 3
        (handleWorkflowMark MarkAction.stop 2
          (handleWorkflowMark MarkAction.start 1 orchState0)))).broadcasts = 0 := by
  decide

/-- C6 amended: `retryAnalysis` re-runs dispatch against the window held in the
single `currentWorkflow` slot iff that slot currently holds a closed window
(`endIndex` defined); when the slot is empty or holds an open window (as after
a later `MarkStart` overwrote a closed one) it answers the synchronous failure
`"No workflow available to retry"` and produces zero broadcasts. -/
theorem c6_retry_amended (st : OrchState) :
    (∀ wf, st.currentWorkflow = some wf → wf.endIndex.isSome = true →
        retryAnalysis st = { success := true, error := none,
                             dispatched := some wf, broadcasts := 1 }) ∧
    ((∀ wf, st.currentWorkflow = some wf → wf.endIndex = none) →
        retryAnalysis st = { success := false,
                             error := some "No workflow available to retry",
                             dispatched := none, broadcasts := 0 }) := by
  constructor
  · intro wf hwf hend
    unfold retryAnalysis
    rw [hwf]
    simp [hend]
  · intro h
    unfold retryAnalysis
    cases hcw : st.currentWorkflow with
    | none => rfl
    | some wf => simp [h wf hcw]

/-- C6 amended witness: after `MarkStart, MarkStop` the slot holds a closed
window and retry dispatches against it. -/
theorem c6_retry_amended_witness :
    retryAnalysis (handleWorkflowMark MarkAction.stop 2
        (handleWorkflowMark MarkAction.start 1 orchState0)) =
      { success := true, error := none,
        dispatched := some { startIndex := 0, startTime := 1,
                             endIndex := some 1, endTime := some 2 },
        broadcasts := 1 } :=
  (c6_retry_amended _).1
    { startIndex := 0, startTime := 1, endIndex := some 1, endTime := some 2 }
    (by decide) (by decide)

/-- C7 counterexample: an analysis-result broadcast does not unregister a
subscriber whose push fails: with a dead port and a live port registered,
`broadcastAnalysis` still delivers to the live port but leaves the dead port
registered, contrary to the claimed unregister-on-failure for every broadcast
kind. -/
theorem c7_counterexample :
    (broadcastAnalysisPorts [{ pid := 0, alive := false }, { pid := 1, alive := true }]).1 =
      [{ pid := 0, alive := false }, { pid := 1, alive := true }] ∧
    (broadcastAnalysisPorts [{ pid := 0, alive := false }, { pid := 1, alive := true }]).2 =
      [1] ∧
    (broadcastPrune [{ pid := 0, alive := false }, { pid := 1, alive := true }]).1 =
      [{ pid := 1, alive := true }] := by
  decide

/-- C7 amended: for every broadcast kind a push failure never prevents delivery
to the remaining subscribers (the delivered set is exactly the live ports, in
registration order); delta, mode-change and pattern-detected broadcasts
unregister failing subscribers during that same broadcast, but analysis-result
broadcasts leave the port set unchanged, so failing subscribers stay
registered there. -/
theorem c7_broadcast_amended (ports : List Port) :
    (broadcastPrune ports).1 = ports.filter (fun p => p.alive) ∧
    (broadcastPrune ports).2 = (ports.filter (fun p => p.alive)).map Port.pid ∧
    (broadcastAnalysisPorts ports).1 = ports ∧
    (broadcastAnalysisPorts ports).2 = (ports.filter (fun p => p.alive)).map Port.pid := by
  induction ports with
  | nil => exact ⟨rfl, rfl, rfl, rfl⟩
  | cons p rest ih =>
    obtain ⟨ih1, ih2, ih3, ih4⟩ := ih
    by_cases h : p.alive
    · refine ⟨?_, ?_, ?_, ?_⟩ <;>
        simp [broadcastPrune, broadcastAnalysisPorts, h, ih1, ih2, ih3, ih4, List.filter_cons]
    · refine ⟨?_, ?_, ?_, ?_⟩ <;>
        simp [broadcastPrune, broadcastAnalysisPorts, h, ih1, ih2, ih3, ih4, List.filter_cons]

/-- Auxiliary: an `Append` that stays within capacity does not evict. -/
theorem pushRing_of_fits (ring events : List RawEvent)
    (h : (ring ++ events).length ≤ MAX_EVENTS) :
    pushRing ring events = ring ++ events := by
  have h2 : ¬ (ring ++ events).length > MAX_EVENTS := by omega
  unfold pushRing
  rw [if_neg h2]

/-- C8 : `MarkStart`, then `k` appended events, then `MarkStop`, with no
eviction (the hypothesis keeps the buffer within capacity throughout), makes
the closed window slice handed to the analysis dispatch exactly the start mark
event, the `k` events and the stop mark event, in append order — `k + 2`
events in all. -/
theorem c8_window_slice (st : OrchState) (evts : List RawEvent) (t1 t2 : Int)
    (hcap : st.ring.length + evts.length + 2 ≤ MAX_EVENTS) :
    workflowSlice (handleWorkflowMark MarkAction.stop t2
        (appendEvents evts (handleWorkflowMark MarkAction.start t1 st))) =
      some (mkMarkEvent MarkAction.start t1 :: (evts ++ [mkMarkEvent MarkAction.stop t2])) := by
  set m1 := mkMarkEvent MarkAction.start t1 with hm1
  set m2 := mkMarkEvent MarkAction.stop t2 with hm2
  have hp1 : pushRing st.ring [m1] = st.ring ++ [m1] := by
    apply pushRing_of_fits
    simp only [List.length_append, List.length_cons, List.length_nil]
    omega
  have e1 : handleWorkflowMark MarkAction.start t1 st =
      { st with
        ring := st.ring ++ [m1]
        mode := WorkflowMode.manual_recording
        currentWorkflow := some { startIndex := st.ring.length, startTime := t1,
                                  endIndex := none, endTime := none } } := by
    unfold handleWorkflowMark
    rw [hp1]
    simp only [startManualRecording, List.length_append, List.length_cons, List.length_nil,
      Nat.add_sub_cancel]
  have hp2 : pushRing (st.ring ++ [m1]) evts = st.ring ++ [m1] ++ evts := by
    apply pushRing_of_fits
    simp only [List.length_append, List.length_cons, List.length_nil]
    omega
  have e2 : appendEvents evts (handleWorkflowMark MarkAction.start t1 st) =
      { st with
        ring := st.ring ++ [m1] ++ evts
        mode := WorkflowMode.manual_recording
        currentWorkflow := some { startIndex := st.ring.length, startTime := t1,
                                  endIndex := none, endTime := none } } := by
    rw [e1]
    unfold appendEvents
    rw [hp2]
  have hp3 : pushRing (st.ring ++ [m1] ++ evts) [m2] = st.ring ++ [m1] ++ evts ++ [m2] := by
    apply pushRing_of_fits
    simp only [List.length_append, List.length_cons, List.length_nil]
    omega
  have e3 : handleWorkflowMark MarkAction.stop t2
      (appendEvents evts (handleWorkflowMark MarkAction.start t1 st)) =
      { st with
        ring := st.ring ++ [m1] ++ evts ++ [m2]
        mode := WorkflowMode.idle
        currentWorkflow := some { startIndex := st.ring.length, startTime := t1,
                                  endIndex := some (st.ring.length + evts.length + 1),
                                  endTime := some t2 } } := by
    rw [e2]
    unfold handleWorkflowMark
    rw [hp3]
    simp only [stopManualRecording, List.length_append, List.length_cons, List.length_nil]
    have harith : st.ring.length + 1 + evts.length + 1 - 1 = st.ring.length + evts.length + 1 := by
      omega
    rw [harith]
  rw [e3]
  unfold workflowSlice jsSlice
  simp only
  have hdrop : (st.ring ++ [m1] ++ evts ++ [m2]).drop st.ring.length = m1 :: (evts ++ [m2]) := by
    rw [List.append_assoc, List.append_assoc]
    rw [List.drop_left' rfl]
    rfl
  have htake : st.ring.length + evts.length + 1 + 1 - st.ring.length = evts.length + 2 := by
    omega
  rw [hdrop, htake]
  have hlen : (m1 :: (evts ++ [m2])).length ≤ evts.length + 2 := by
    simp only [List.length_cons, List.length_append, List.length_cons, List.length_nil]
    omega
  rw [List.take_of_length_le hlen]

/-- C8 witness at the boot state with three concrete intervening events. -/
theorem c8_window_slice_witness :
    orchState0.ring.length + 3 + 2 ≤ MAX_EVENTS ∧
    workflowSlice (handleWorkflowMark MarkAction.stop 9
        (appendEvents [⟨"nav", "", 4, "a"⟩, ⟨"nav", "", 5, "b"⟩, ⟨"nav", "", 6, "c"⟩]
          (handleWorkflowMark MarkAction.start 3 orchState0))) =
      some (mkMarkEvent MarkAction.start 3 ::
        ([⟨"nav", "", 4, "a"⟩, ⟨"nav", "", 5, "b"⟩, ⟨"nav", "", 6, "c"⟩] ++
          [mkMarkEvent MarkAction.stop 9])) :=
  ⟨by decide, c8_window_slice orchState0
    [⟨"nav", "", 4, "a"⟩, ⟨"nav", "", 5, "b"⟩, ⟨"nav", "", 6, "c"⟩] 3 9 (by decide)⟩

/-- One step of a workflow analysis (`types.ts`). -/
structure AnalysisStep where
  action : String
  intent : String
deriving DecidableEq, Repr

/-- The `debug` block of a `WorkflowAnalysis` (`types.ts`). -/
structure AnalysisDebug where
  prompt : Option String
  error : Option String
  rawResponse : Option String
  modelStatus : Option String
deriving DecidableEq, Repr

/-- The runtime value flowing through the `WorkflowAnalysis`-typed code paths.
The TS interface declares `summary` and `steps` mandatory, but
`ai.ts / analyzeWorkflow` produces its success value by
`JSON.parse(result) as WorkflowAnalysis` — an unchecked type assertion — so at
runtime these fields may be absent; they are therefore `Option` here, and
`WellFormedWorkflowAnalysis` states the shape the interface declares. -/
structure WorkflowAnalysis where
  summary : Option String
  steps : Option (List AnalysisStep)
  suggestions : Option (List String)
  workflowPrompt : Option String
  debug : Option AnalysisDebug
deriving DecidableEq, Repr

/-- The shape `interface WorkflowAnalysis` declares (and the spec's
AnalysisResult data model requires): `summary` and `steps` present. -/
def WellFormedWorkflowAnalysis (a : WorkflowAnalysis) : Prop :=
  a.summary.isSome = true ∧ a.steps.isSome = true

/-- The schema-validated payload `callClaudeAPI` returns on success
(`WorkflowAnalysisSchema` of `remote-ai.ts`: summary, steps and suggestions
are all required by the zod schema). -/
structure StructuredAnalysis where
  summary : String
  steps : List AnalysisStep
  suggestions : List String
deriving DecidableEq, Repr

/-- Stands for `JSON.stringify(result)` on the validated payload. -/
def stringifyStructured (r : StructuredAnalysis) : String :=
  r.summary ++ " / " ++
    String.intercalate " / " (r.steps.map fun s => s.action ++ ": " ++ s.intent) ++
    " / " ++ String.intercalate " / " r.suggestions

/-- Outcome of the `callClaudeAPI` call inside `remote-ai.ts / analyzeWorkflow`:
the SDK call threw (transport failure, auth failure, or zod schema-validation
failure — all rethrown as errors by `callClaudeAPI`), returned a falsy value,
or returned schema-validated data. -/
inductive RemoteModelOutcome where
  | apiError (msg : String)
  | emptyResponse
  | structured (r : StructuredAnalysis)
deriving DecidableEq, Repr

/-- `analyzeWorkflow` of `remote-ai.ts` (lines 302-406), as a function of the
prompt, the configured API key (`''` when not configured) and the outcome of
the API call.  Every branch returns a `WorkflowAnalysis`; no exception
escapes. -/
def RemoteAI.analyzeWorkflow (prompt apiKey : String)
    (outcome : RemoteModelOutcome) : WorkflowAnalysis :=
  if apiKey = "" then
    { summary := some "Error: Claude API key not configured"
      steps := some [{ action := "Configuration Error",
                       intent := "Claude API key not found in environment variables" }]
      suggestions := none
      workflowPrompt := none
      debug := some { prompt := some prompt
                      error := some "Claude API key not configured. Please add VITE_ANTHROPIC_API_KEY to your .env file."
                      rawResponse := none
                      modelStatus := some "not configured" } }
  else
    match outcome with
    | RemoteModelOutcome.apiError msg =>
        { summary := some "Error calling Claude API"
          steps := some [{ action := "API call failed", intent := msg }]
          suggestions := none
          workflowPrompt := none
          debug := some { prompt := some prompt, error := some msg,
                          rawResponse := none, modelStatus := some "error" } }
    | RemoteModelOutcome.emptyResponse =>
        { summary := some "Error with Claude API response"
          steps := some [{ action := "Empty response from Claude API",
                           intent := "The API returned an empty or undefined response" }]
          suggestions := none
          workflowPrompt := none
          debug := some { prompt := some prompt
                          error := some "Empty or undefined response from Claude API"
                          rawResponse := some "undefined"
                          modelStatus := some "error" } }
    | RemoteModelOutcome.structured r =>
        { summary := some r.summary
          steps := some r.steps
          suggestions := some r.suggestions
          workflowPrompt := none
          debug := some { prompt := some prompt, error := none,
                          rawResponse := some (stringifyStructured r),
                          modelStatus := some "available" } }

/-- The value `JSON.parse(result)` produces, viewed through the
`as WorkflowAnalysis` cast of `ai.ts`: any combination of the declared fields
may be absent, since nothing validates the parsed object. -/
structure ParsedAnalysis where
  summary : Option String
  steps : Option (List AnalysisStep)
  suggestions : Option (List String)
  workflowPrompt : Option String
deriving DecidableEq, Repr

/-- Outcome of the Chrome built-in model interaction inside
`ai.ts / analyzeWorkflow`, one constructor per `catch`/early-return path of
the source plus the successful-parse path. -/
inductive LocalModelOutcome where
  | paramsError (msg : String)
  | notAvailable (status : String)
  | availabilityError (msg : String)
  | sessionError (msg : String)
  | promptError (msg : String)
  | emptyResponse
  | parseError (raw : String) (msg : String)
  | parsed (raw : String) (v : ParsedAnalysis)
deriving DecidableEq, Repr

/-- `analyzeWorkflow` of `ai.ts` (lines 306-564).  Note the `parsed` branch:
the source runs `const analysis = JSON.parse(result) as WorkflowAnalysis`,
attaches the debug block, and returns the parsed object unvalidated. -/
def LocalAI.analyzeWorkflow (prompt : String)
    (outcome : LocalModelOutcome) : WorkflowAnalysis :=
  match outcome with
  | LocalModelOutcome.paramsError msg =>
      { summary := some "Error analyzing workflow"
        steps := some [{ action := "Error getting model parameters", intent := msg }]
        suggestions := none
        workflowPrompt := none
        debug := some { prompt := some prompt, error := some msg,
                        rawResponse := none,
                        modelStatus := some "unavailable - params error" } }
  | LocalModelOutcome.notAvailable status =>
      { summary := some "Error: AI model not available"
        steps := some [{ action := "AI Model Unavailable",
                         intent := "Current status: " ++ status ++ ". Please ensure you are using Chrome 131+ with the AI Origin Trial enabled." }]
        suggestions := none
        workflowPrompt := none
        debug := some { prompt := some prompt
                        error := some ("Model not available. Status: " ++ status)
                        rawResponse := none
                        modelStatus := some status } }
  | LocalModelOutcome.availabilityError msg =>
      { summary := some "Error checking AI model availability"
        steps := some [{ action := "Error determining model availability", intent := msg }]
        suggestions := none
        workflowPrompt := none
        debug := some { prompt := some prompt, error := some msg,
                        rawResponse := none,
                        modelStatus := some "error checking availability" } }
  | LocalModelOutcome.sessionError msg =>
      { summary := some "Error creating AI model session"
        steps := some [{ action := "Failed to create model session", intent := msg }]
        suggestions := none
        workflowPrompt := none
        debug := some { prompt := some prompt, error := some msg,
                        rawResponse := none, modelStatus := some "available" } }
  | LocalModelOutcome.promptError msg =>
      { summary := some "Error communicating with AI model"
        steps := some [{ action := "Failed to get model response", intent := msg }]
        suggestions := none
        workflowPrompt := none
        debug := some { prompt := some prompt, error := some msg,
                        rawResponse := none, modelStatus := some "available" } }
  | LocalModelOutcome.emptyResponse =>
      { summary := some "Error with model response"
        steps := some [{ action := "Empty response from AI model",
                         intent := "The model returned an empty or undefined response" }]
        suggestions := none
        workflowPrompt := none
        debug := some { prompt := some prompt
                        error := some "Empty or undefined response from model"
                        rawResponse := some "undefined"
                        modelStatus := some "available" } }
  | LocalModelOutcome.parseError raw msg =>
      { summary := some "Error parsing AI response"
        steps := some [{ action := "Failed to parse model response",
                         intent := "The model response was not valid JSON. Try adjusting the prompt." }]
        suggestions := none
        workflowPrompt := none
        debug := some { prompt := some prompt, error := some msg,
                        rawResponse := some raw, modelStatus := some "available" } }
  | LocalModelOutcome.parsed raw v =>
      { summary := v.summary
        steps := v.steps
        suggestions := v.suggestions
        workflowPrompt := v.workflowPrompt
        debug := some { prompt := some prompt, error := none,
                        rawResponse := some raw, modelStatus := some "available" } }

/-- One occurrence of a detected pattern in the structured LLM response
(`PatternDetectionSchema` of `pattern-detector`); the source field `end` is a
reserved word in Lean and is rendered `endIdx`. -/
structure PatternOccurrence where
  start : Nat
  endIdx : Nat
deriving DecidableEq, Repr

/-- One entry of the `patterns` array of the structured pattern-detection
response.  JS numeric confidence is modelled as a rational. -/
structure RawPattern where
  description : String
  occurrences : List PatternOccurrence
  confidence : ℚ
deriving DecidableEq, Repr

/-- `DetectedPattern` of `pattern-detector`. -/
structure DetectedPattern where
  sequence : List RawEvent
  occurrences : Nat
  confidence : ℚ
  firstSeen : Int
  lastSeen : Int
  averageDuration : ℚ
  description : Option String
deriving DecidableEq, Repr

/-- Default `minSequenceLength` of `PatternDetectorConfig`. -/
def minSequenceLength : Nat := 3

/-- `PatternDetector.createDetectedPattern`: slices out every occurrence,
returns `null` when there are no sequences or the representative (first)
sequence is empty — and likewise when any later sequence is empty, since
`seq[0].t` then throws inside the `try` and the `catch` returns `null`.
Otherwise it builds the `DetectedPattern` from the first sequence and the
occurrence timestamps (`Math.min`/`Math.max`/mean duration). -/
def createDetectedPattern (p : RawPattern) (events : List RawEvent) :
    Option DetectedPattern :=
  let sequences := p.occurrences.map fun occ => jsSlice events occ.start (occ.endIdx + 1)
  if sequences.isEmpty || sequences.any List.isEmpty then none
  else
    let timestamps : List (Int × Int) :=
      sequences.map fun seq => ((seq.headD default).t, (seq.getLastD default).t)
    let durations : List Int := timestamps.map fun ts => ts.2 - ts.1
    some { sequence := sequences.headD []
           occurrences := p.occurrences.length
           confidence := p.confidence
           firstSeen := ((timestamps.map Prod.fst).min?).getD 0
           lastSeen := ((timestamps.map Prod.snd).max?).getD 0
           averageDuration := ((durations.map fun d => (d : ℚ)).sum) / (durations.length : ℚ)
           description := some p.description }

/-- `PatternDetector.convertStructuredResponse` (`pattern-detector` lines
205-218): keep patterns with at least two occurrences, build
`DetectedPattern`s, drop `null`s and too-short representative sequences, sort
by confidence descending (`(a, b) => b.confidence - a.confidence`), and return
the top 5. -/
def convertStructuredResponse (patterns : List RawPattern)
    (events : List RawEvent) : List DetectedPattern :=
  ((((patterns.filter fun p => decide (2 ≤ p.occurrences.length)).filterMap
      fun p => createDetectedPattern p events).filter
      fun p => decide (minSequenceLength ≤ p.sequence.length)).mergeSort
      fun a b => decide (b.confidence ≤ a.confidence)).take 5

theorem createDetectedPattern_occurrences (p : RawPattern)
    (events : List RawEvent) (d : DetectedPattern)
    (h : createDetectedPattern p events = some d) :
    d.occurrences = p.occurrences.length := by
  dsimp only [createDetectedPattern] at h
  split at h
  · exact absurd h (by simp)
  · injection h with h2
    rw [← h2]
/-- For every structured (remote-path) pattern-detection response, the
candidate list `convertStructuredResponse` produces has length at most 5,
contains only patterns with at least 2 occurrences and a representative
sequence of at least `minSequenceLength` (3) events, and is sorted by
confidence in descending order. -/
theorem convertStructuredResponse_props (patterns : List RawPattern) (events : List RawEvent) :
    (convertStructuredResponse patterns events).length ≤ 5 ∧
    (∀ d ∈ convertStructuredResponse patterns events,
        2 ≤ d.occurrences ∧ minSequenceLength ≤ d.sequence.length) ∧
    (convertStructuredResponse patterns events).Pairwise
      (fun a b => b.confidence ≤ a.confidence) := by
  unfold convertStructuredResponse
  refine ⟨?_, ?_, ?_⟩
  · have := List.length_take 5 (((( patterns.filter fun p => decide (2 ≤ p.occurrences.length)).filterMap
      fun p => createDetectedPattern p events).filter
      fun p => decide (minSequenceLength ≤ p.sequence.length)).mergeSort
      fun a b => decide (b.confidence ≤ a.confidence))
    omega
  · intro d hd
    have hms := (List.take_sublist 5 _).subset hd
    have hb := (List.mem_mergeSort).mp hms
    obtain ⟨hfm, hlen⟩ := List.mem_filter.mp hb
    have hlen2 : minSequenceLength ≤ d.sequence.length := by
      exact of_decide_eq_true hlen
    obtain ⟨q, hq, hcreate⟩ := List.mem_filterMap.mp hfm
    obtain ⟨hq1, hq2d⟩ := List.mem_filter.mp hq
    have hq2 : 2 ≤ q.occurrences.length := of_decide_eq_true hq2d
    have hocc := createDetectedPattern_occurrences q events d hcreate
    exact ⟨by rw [hocc]; exact hq2, hlen2⟩
  · have htrans : ∀ a b c : DetectedPattern,
        (fun a b => decide (b.confidence ≤ a.confidence)) a b →
        (fun a b => decide (b.confidence ≤ a.confidence)) b c →
        (fun a b => decide (b.confidence ≤ a.confidence)) a c := by
      intro a b c h1 h2
      simp only [decide_eq_true_eq] at h1 h2 ⊢
      exact le_trans h2 h1
    have htotal : ∀ a b : DetectedPattern,
        ((fun a b => decide (b.confidence ≤ a.confidence)) a b ||
         (fun a b => decide (b.confidence ≤ a.confidence)) b a) := by
      intro a b
      simp only [decide_eq_true_eq, Bool.or_eq_true]
      exact le_total b.confidence a.confidence
    have hsorted := List.sorted_mergeSort htrans htotal
      ((( patterns.filter fun p => decide (2 ≤ p.occurrences.length)).filterMap
        fun p => createDetectedPattern p events).filter
        fun p => decide (minSequenceLength ≤ p.sequence.length))
    have hsorted2 := hsorted.sublist (List.take_sublist 5 _)
    exact hsorted2.imp (fun h => of_decide_eq_true h)

/-- Concrete events for the structured-path scenarios. -/
def c9Events : List RawEvent :=
  [⟨"user", "click", 1, "a"⟩, ⟨"nav", "", 2, "b"⟩, ⟨"user", "click", 3, "c"⟩,
   ⟨"nav", "", 4, "d"⟩, ⟨"user", "click", 5, "e"⟩]

/-- Concrete structured response: one pattern with two occurrences of three
events each. -/
def c9Patterns : List RawPattern :=
  [{ description := "repeated lookup", occurrences := [⟨0, 2⟩, ⟨2, 4⟩],
     confidence := 9 / 10 }]

/-- The parsed value for the C1 failing input: the model answered with the
two-character JSON text `\x7b\x7d` — syntactically valid JSON that carries none of
the fields the `WorkflowAnalysis` interface declares. -/
def emptyParsedObject : ParsedAnalysis :=
  { summary := none, steps := none, suggestions := none, workflowPrompt := none }

/-- C1 : evaluation of the local backend at the failing input.  When the
Chrome model responds with valid JSON that does not conform to the
`WorkflowAnalysis` schema, `ai.ts / analyzeWorkflow` returns the parsed object
unvalidated (`JSON.parse(result) as WorkflowAnalysis`): the result carries
debug fields but has no `summary` and no `steps`, so it is not a well-formed
`AnalysisResult` describing the failure — contradicting the claimed discipline
for the malformed-response path (no exception escapes, however). -/
theorem c1_local_unvalidated_parse :
    (LocalAI.analyzeWorkflow "prompt"
        (LocalModelOutcome.parsed "\x7b\x7d" emptyParsedObject)).summary = none ∧
    (LocalAI.analyzeWorkflow "prompt"
        (LocalModelOutcome.parsed "\x7b\x7d" emptyParsedObject)).steps = none ∧
    (LocalAI.analyzeWorkflow "prompt"
        (LocalModelOutcome.parsed "\x7b\x7d" emptyParsedObject)).debug.isSome = true ∧
    ¬ WellFormedWorkflowAnalysis (LocalAI.analyzeWorkflow "prompt"
        (LocalModelOutcome.parsed "\x7b\x7d" emptyParsedObject)) := by
  refine ⟨rfl, rfl, rfl, ?_⟩
  intro h
  unfold WellFormedWorkflowAnalysis at h
  exact absurd h.1 (by decide)

/-- Companion fact: the remote backend does obey the claimed discipline on
every code path — each outcome yields a well-formed analysis carrying a debug
block, and on each failure outcome the debug error field is populated. -/
theorem remoteAI_failure_discipline (prompt apiKey : String)
    (o : RemoteModelOutcome) :
    WellFormedWorkflowAnalysis (RemoteAI.analyzeWorkflow prompt apiKey o) ∧
    (RemoteAI.analyzeWorkflow prompt apiKey o).debug.isSome = true := by
  unfold RemoteAI.analyzeWorkflow WellFormedWorkflowAnalysis
  by_cases h : apiKey = ""
  · simp [h]
  · cases o <;> simp [h]

/-- Every non-`parsed` outcome of the local backend also obeys the discipline:
a well-formed analysis whose debug error field describes the failure. -/
theorem localAI_failure_paths_discipline (prompt : String)
    (o : LocalModelOutcome) (h : ∀ raw v, o ≠ LocalModelOutcome.parsed raw v) :
    WellFormedWorkflowAnalysis (LocalAI.analyzeWorkflow prompt o) ∧
    ∃ d, (LocalAI.analyzeWorkflow prompt o).debug = some d ∧ d.error.isSome = true := by
  unfold LocalAI.analyzeWorkflow WellFormedWorkflowAnalysis
  cases o with
  | paramsError msg => exact ⟨⟨rfl, rfl⟩, _, rfl, rfl⟩
  | notAvailable status => exact ⟨⟨rfl, rfl⟩, _, rfl, rfl⟩
  | availabilityError msg => exact ⟨⟨rfl, rfl⟩, _, rfl, rfl⟩
  | sessionError msg => exact ⟨⟨rfl, rfl⟩, _, rfl, rfl⟩
  | promptError msg => exact ⟨⟨rfl, rfl⟩, _, rfl, rfl⟩
  | emptyResponse => exact ⟨⟨rfl, rfl⟩, _, rfl, rfl⟩
  | parseError raw msg => exact ⟨⟨rfl, rfl⟩, _, rfl, rfl⟩
  | parsed raw v => exact absurd rfl (h raw v)

/-- A surfaced ambient pattern as stored under the `ambientPattern` key. -/
structure SurfacedPattern where
  pattern : DetectedPattern
  detectedAt : Int
  status : String
deriving DecidableEq, Repr

/-- An entry of the `patternHistory` list. -/
structure PatternHistoryEntry where
  pattern : DetectedPattern
  detectedAt : Int
  status : String
deriving DecidableEq, Repr

/-- The two `chrome.storage.local` keys the ambient-pattern flow touches. -/
structure PatternStore where
  ambientPattern : Option SurfacedPattern
  patternHistory : List PatternHistoryEntry
deriving DecidableEq, Repr

/-- `WorkflowManager.notifyUserOfPattern` (`sw.ts` lines 115-131): sets the
badge (a collaborator call, no orchestrator state), stores the new pattern
under `ambientPattern` with status `pending_review` — overwriting whatever was
stored there — and broadcasts.  Its only storage effect is the overwrite. -/
def notifyUserOfPattern (now : Int) (p : DetectedPattern) (st : PatternStore) :
    PatternStore :=
  { st with
    ambientPattern := some { pattern := p, detectedAt := now, status := "pending_review" } }

/-- `WorkflowManager.savePatternToHistory` (`sw.ts` lines 150-165): appends the
entry and keeps the last 50 (`history.slice(-50)`). -/
def savePatternToHistory (now : Int) (p : DetectedPattern) (status : String)
    (st : PatternStore) : PatternStore :=
  { st with
    patternHistory :=
      (st.patternHistory ++
        [({ pattern := p, detectedAt := now, status := status } : PatternHistoryEntry)]).rtake 50 }

/-- C10 : `notifyUserOfPattern` unconditionally overwrites the `ambientPattern`
slot with the new pattern — so a pattern surfaced while an earlier one is
still `pending_review` silently replaces it — and leaves the pattern history
untouched, so the overwritten pattern is never appended to the capped
history. -/
theorem c10_notify_frame (now : Int) (p : DetectedPattern) (st : PatternStore) :
    (notifyUserOfPattern now p st).ambientPattern =
      some { pattern := p, detectedAt := now, status := "pending_review" } ∧
    (notifyUserOfPattern now p st).patternHistory = st.patternHistory :=
  ⟨rfl, rfl⟩

/-- The dynamically-typed `confidence` field of a pattern in the locally
parsed response, quotiented by the only two observations
`parsePatternResponse` makes of such a value: JS truthiness (for the
`confidence || 0.75` defaulting) and `ToNumber` coercion (for the sort
comparator `(a, b) => b.confidence - a.confidence`; `toNum = none` models
coercion to `NaN`).  A JSON number `q` is `⟨q ≠ 0, some q⟩`, a numeric string
such as `"0.9"` is `⟨true, some 9/10⟩`, a non-numeric string such as `"high"`
or an object is `⟨true, none⟩`, and `null` / `false` are `⟨false, _⟩`. -/
structure JsConfValue where
  truthy : Bool
  toNum : Option ℚ
deriving DecidableEq, Repr

/-- `pattern.confidence || 0.75` of `parsePatternResponse`: the value itself
when truthy, otherwise the number 0.75. -/
def jsOrDefault (c : JsConfValue) : JsConfValue :=
  if c.truthy then c else { truthy := true, toNum := some (3 / 4) }

/-- `a` is numerically at least `b`: both coerce to numbers and `b ≤ a`.  When
either side coerces to `NaN` the comparator subtraction yields `NaN` and
neither direction counts as descending. -/
def confGEb (a b : JsConfValue) : Bool :=
  match a.toNum, b.toNum with
  | some qa, some qb => decide (qb ≤ qa)
  | _, _ => false

/-- A pattern entry of the locally parsed response, as far as
`parsePatternResponse` observes it.  `occurrences` is the list of effective
index pairs the `events.slice(occ.start, occ.end + 1)` calls use (JS `slice`
coerces its arguments, so any occurrence record denotes such a pair); an
absent `occurrences` field is falsy and behaves exactly like a too-short list
under the `p.occurrences && p.occurrences.length >= 2` filter.  A truthy
non-array `occurrences` (or a non-object pattern) would throw in `.map` and
fall to the outer catch, indistinguishable from `LocalParseOutcome.parseFailure`. -/
structure LoosePattern where
  description : Option String
  occurrences : List PatternOccurrence
  confidence : JsConfValue
deriving DecidableEq, Repr

/-- The runtime shape of a `DetectedPattern` produced by the local path: the
TS interface declares `confidence : number`, but nothing validates the parsed
response, so the field is dynamically typed here. -/
structure DetectedPatternJs where
  sequence : List RawEvent
  occurrences : Nat
  confidence : JsConfValue
  firstSeen : Int
  lastSeen : Int
  averageDuration : ℚ
  description : Option String
deriving DecidableEq, Repr

/-- Body of the `.map` inside `parsePatternResponse` (`pattern-detector`
lines 279-311): slices out the occurrences, takes the first sequence as
representative, computes the timestamp metrics, and applies the
`confidence || 0.75` defaulting.  Only evaluated when no sequence is empty
(otherwise `seq[0].t` throws, see `sliceThrows`). -/
def looseDetectedPattern (p : LoosePattern) (events : List RawEvent) :
    DetectedPatternJs :=
  let sequences := p.occurrences.map fun occ => jsSlice events occ.start (occ.endIdx + 1)
  let timestamps : List (Int × Int) :=
    sequences.map fun seq => ((seq.headD default).t, (seq.getLastD default).t)
  let durations : List Int := timestamps.map fun ts => ts.2 - ts.1
  { sequence := sequences.headD []
    occurrences := p.occurrences.length
    confidence := jsOrDefault p.confidence
    firstSeen := ((timestamps.map Prod.fst).min?).getD 0
    lastSeen := ((timestamps.map Prod.snd).max?).getD 0
    averageDuration := ((durations.map fun d => (d : ℚ)).sum) / (durations.length : ℚ)
    description := p.description }

/-- Outcome of `JSON.parse(response) as PatternDetectionResponse` at the top
of `parsePatternResponse`: the parse threw (or the parsed shape throws later,
see `LoosePattern`), the `patterns` field is falsy or not an array, or an
array of loosely-typed patterns was obtained. -/
inductive LocalParseOutcome where
  | parseFailure
  | noPatterns
  | patterns (ps : List LoosePattern)
deriving DecidableEq, Repr

/-- Whether `seq[0].t` throws inside the `.map`: some occurrence of some
pattern that passed the `>= 2` filter slices to an empty sequence.  The
exception propagates to the outer catch and the whole call returns `[]`
(unlike `createDetectedPattern`, there is no per-pattern catch here). -/
def sliceThrows (ps : List LoosePattern) (events : List RawEvent) : Bool :=
  (ps.filter fun p => decide (2 ≤ p.occurrences.length)).any
    fun p => p.occurrences.any fun occ =>
      (jsSlice events occ.start (occ.endIdx + 1)).isEmpty

/-- The list `parsePatternResponse` hands to `.sort(...)`: patterns with at
least two occurrences, mapped through `looseDetectedPattern`, keeping only
representative sequences of at least `minSequenceLength` events. -/
def parsePatternCandidates (ps : List LoosePattern) (events : List RawEvent) :
    List DetectedPatternJs :=
  ((ps.filter fun p => decide (2 ≤ p.occurrences.length)).map
      fun p => looseDetectedPattern p events).filter
    fun d => decide (minSequenceLength ≤ d.sequence.length)

/-- A host implementation of `Array.prototype.sort` with the comparator
`(a, b) => b.confidence - a.confidence`, characterized by exactly what
ECMA-262 guarantees: the output is a permutation of the input, and when every
element's confidence coerces to a number — the comparator is then a consistent
comparison function — the output is sorted descending by the coerced values.
When a confidence coerces to `NaN` the comparator is inconsistent and the
resulting order is implementation-defined, so the embedding is parameterized
over the host behavior. -/
structure ConfidenceSort where
  sort : List DetectedPatternJs → List DetectedPatternJs
  perm : ∀ l, (sort l).Perm l
  sorted_of_numeric : ∀ l, (∀ d ∈ l, d.confidence.toNum.isSome = true) →
    (sort l).Pairwise fun a b => confGEb a.confidence b.confidence = true

/-- `PatternDetector.parsePatternResponse` (`pattern-detector` lines 270-319),
the local-path twin of `convertStructuredResponse`, for a host sort `S`:
parse failures and missing `patterns` return `[]`; an empty sliced sequence
throws into the outer catch, returning `[]`; otherwise the candidates are
sorted by the host and truncated to the top 5. -/
def parsePatternResponse (S : ConfidenceSort) (outcome : LocalParseOutcome)
    (events : List RawEvent) : List DetectedPatternJs :=
  match outcome with
  | LocalParseOutcome.parseFailure => []
  | LocalParseOutcome.noPatterns => []
  | LocalParseOutcome.patterns ps =>
      if sliceThrows ps events then []
      else (S.sort (parsePatternCandidates ps events)).take 5

/-- The sort key a concrete conforming host may use: the coerced confidence,
with `NaN` keyed as 0 (a legitimate choice, since with `NaN` present any order
is conforming). -/
def confKey (d : DetectedPatternJs) : ℚ :=
  d.confidence.toNum.getD 0

/-- Descending comparison on `confKey`, the Boolean form of the comparator a
conforming host may realize. -/
def confDescCmp (a b : DetectedPatternJs) : Bool :=
  decide (confKey b ≤ confKey a)

theorem confDescCmp_trans : ∀ a b c : DetectedPatternJs,
    confDescCmp a b = true → confDescCmp b c = true → confDescCmp a c = true := by
  intro a b c h1 h2
  simp only [confDescCmp, decide_eq_true_eq] at h1 h2 ⊢
  exact le_trans h2 h1

theorem confDescCmp_total : ∀ a b : DetectedPatternJs,
    (confDescCmp a b || confDescCmp b a) = true := by
  intro a b
  simp only [confDescCmp, Bool.or_eq_true, decide_eq_true_eq]
  exact le_total (confKey b) (confKey a)

/-- One concrete ECMA-262-conforming host sort: merge sort descending by
`confKey`. -/
def mergeSortConfidence : ConfidenceSort where
  sort l := l.mergeSort confDescCmp
  perm l := List.mergeSort_perm l confDescCmp
  sorted_of_numeric l h := by
    have hs : (l.mergeSort confDescCmp).Pairwise fun a b => confDescCmp a b = true :=
      List.sorted_mergeSort confDescCmp_trans confDescCmp_total l
    refine hs.imp_of_mem ?_
    intro a b ha hb hle
    have ha2 : a.confidence.toNum.isSome = true := h a (List.mem_mergeSort.mp ha)
    have hb2 : b.confidence.toNum.isSome = true := h b (List.mem_mergeSort.mp hb)
    obtain ⟨qa, hqa⟩ := Option.isSome_iff_exists.mp ha2
    obtain ⟨qb, hqb⟩ := Option.isSome_iff_exists.mp hb2
    simp only [confDescCmp, confKey, hqa, hqb, Option.getD_some, decide_eq_true_eq] at hle
    simp only [confGEb, hqa, hqb]
    exact decide_eq_true hle

/-- Auxiliary: if a two-element list violates `Pairwise R` in both of its
arrangements, then no permutation of it satisfies `Pairwise R`. -/
theorem not_pairwise_of_perm_pair_bad {α : Type} {R : α → α → Prop}
    {c : List α} (hlen : c.length = 2) (hnp : ¬ c.Pairwise R)
    (hnpr : ¬ c.reverse.Pairwise R) {l : List α} (hperm : l.Perm c) :
    ¬ l.Pairwise R := by
  intro hp
  obtain ⟨x, y, rfl⟩ : ∃ x y, c = [x, y] := by
    cases c with
    | nil => exact absurd hlen (by simp)
    | cons x t =>
      cases t with
      | nil => exact absurd hlen (by simp)
      | cons y t2 =>
        cases t2 with
        | nil => exact ⟨x, y, rfl⟩
        | cons z t3 =>
          exfalso
          simp only [List.length_cons] at hlen
          omega
  have hlen2 : l.length = 2 := hperm.length_eq.trans hlen
  obtain ⟨a, b, rfl⟩ : ∃ a b, l = [a, b] := by
    cases l with
    | nil => exact absurd hlen2 (by simp)
    | cons a t =>
      cases t with
      | nil => exact absurd hlen2 (by simp)
      | cons b t2 =>
        cases t2 with
        | nil => exact ⟨a, b, rfl⟩
        | cons z t3 =>
          exfalso
          simp only [List.length_cons] at hlen2
          omega
  have hab : R a b := List.rel_of_pairwise_cons hp (by simp)
  have key : ∀ u v : α, a = u → b = v → R u v := by
    intro u v h1 h2
    rw [← h1, ← h2]
    exact hab
  have ha : a ∈ [x, y] := hperm.subset (by simp)
  have hb : b ∈ [x, y] := hperm.subset (by simp)
  have hx : x ∈ [a, b] := hperm.symm.subset (by simp)
  have hy : y ∈ [a, b] := hperm.symm.subset (by simp)
  simp only [List.mem_cons, List.mem_singleton, List.not_mem_nil, or_false] at ha hb hx hy
  have hrev : ([x, y]).reverse = [y, x] := rfl
  rcases ha with ha | ha <;> rcases hb with hb | hb
  · have hyx : y = x := by
      rcases hy with hy | hy
      · rw [hy, ha]
      · rw [hy, hb]
    apply hnp
    rw [hyx]
    exact List.pairwise_pair.mpr (key x x ha hb)
  · apply hnp
    exact List.pairwise_pair.mpr (key x y ha hb)
  · apply hnpr
    rw [hrev]
    exact List.pairwise_pair.mpr (key y x ha hb)
  · have hxy : x = y := by
      rcases hx with hx | hx
      · rw [hx, ha]
      · rw [hx, hb]
    apply hnp
    rw [hxy]
    exact List.pairwise_pair.mpr (key y y ha hb)

/-- Six events for the local-path scenarios. -/
def c9LocalEvents : List RawEvent :=
  [⟨"user", "click", 1, "a"⟩, ⟨"nav", "", 2, "b"⟩, ⟨"user", "click", 3, "c"⟩,
   ⟨"user", "click", 4, "d"⟩, ⟨"nav", "", 5, "e"⟩, ⟨"user", "click", 6, "f"⟩]

/-- The failing local response, parsed: two patterns, each with two
three-event occurrences; one confidence is the string `"high"` (truthy, with
`ToNumber` giving `NaN`), the other the number 1.  Valid JSON, so
`JSON.parse` succeeds and nothing downstream validates it. -/
def c9BadPatterns : List LoosePattern :=
  [{ description := some "lookup with vague confidence",
     occurrences := [⟨0, 2⟩, ⟨3, 5⟩],
     confidence := { truthy := true, toNum := none } },
   { description := some "numeric lookup",
     occurrences := [⟨0, 2⟩, ⟨3, 5⟩],
     confidence := { truthy := true, toNum := some 1 } }]

/-- A local response whose kept confidences are all numeric (the unvalidated
path imposes no range restriction), for the amended witness. -/
def c9GoodPatterns : List LoosePattern :=
  [{ description := some "numeric one", occurrences := [⟨0, 2⟩, ⟨3, 5⟩],
     confidence := { truthy := true, toNum := some 1 } },
   { description := some "numeric two", occurrences := [⟨0, 2⟩, ⟨3, 5⟩],
     confidence := { truthy := true, toNum := some 2 } }]

/-- Branch equation of `parsePatternResponse` on a parsed `patterns` array. -/
theorem parsePatternResponse_patterns (S : ConfidenceSort)
    (ps : List LoosePattern) (events : List RawEvent) :
    parsePatternResponse S (LocalParseOutcome.patterns ps) events =
      if sliceThrows ps events = true then []
      else (S.sort (parsePatternCandidates ps events)).take 5 := rfl

/-- At the failing response the local path's candidate list pairs a
`NaN`-coercing confidence with a numeric one, so for every ECMA-262-conforming
host behavior of the sort — any permutation, since the comparator is
inconsistent — the output of `parsePatternResponse` is not sorted by
confidence in descending order. -/
theorem c9_local_unsorted_every_host (S : ConfidenceSort) :
    ¬ (parsePatternResponse S (LocalParseOutcome.patterns c9BadPatterns)
        c9LocalEvents).Pairwise
      (fun a b => confGEb a.confidence b.confidence = true) := by
  have hres : parsePatternResponse S (LocalParseOutcome.patterns c9BadPatterns)
      c9LocalEvents =
      (S.sort (parsePatternCandidates c9BadPatterns c9LocalEvents)).take 5 := rfl
  rw [hres]
  have hperm := S.perm (parsePatternCandidates c9BadPatterns c9LocalEvents)
  have hlen : (S.sort (parsePatternCandidates c9BadPatterns c9LocalEvents)).length ≤ 5 := by
    rw [hperm.length_eq]
    decide
  rw [List.take_of_length_le hlen]
  exact not_pairwise_of_perm_pair_bad (by decide) (by decide) (by decide) hperm

/-- C9 counterexample: the claim fails on the local path
(`parsePatternResponse`).  At the concrete response `c9BadPatterns` — valid
JSON whose first confidence is the non-numeric string `"high"` — no exception
is raised and the candidate list survives both filters with two entries, one
`NaN`-coercing and one numeric confidence; neither arrangement of those two
candidates is sorted by confidence in descending order, and under the concrete
conforming host sort `mergeSortConfidence` the returned list is indeed not
descending-sorted. -/
theorem c9_counterexample :
    (sliceThrows c9BadPatterns c9LocalEvents = false ∧
      (parsePatternCandidates c9BadPatterns c9LocalEvents).length = 2 ∧
      (parsePatternCandidates c9BadPatterns c9LocalEvents).map
        (fun d => d.confidence.toNum.isSome) = [false, true] ∧
      ¬ (parsePatternCandidates c9BadPatterns c9LocalEvents).Pairwise
          (fun a b => confGEb a.confidence b.confidence = true) ∧
      ¬ ((parsePatternCandidates c9BadPatterns c9LocalEvents).reverse).Pairwise
          (fun a b => confGEb a.confidence b.confidence = true)) ∧
    ¬ (parsePatternResponse mergeSortConfidence
          (LocalParseOutcome.patterns c9BadPatterns) c9LocalEvents).Pairwise
        (fun a b => confGEb a.confidence b.confidence = true) :=
  ⟨by decide, c9_local_unsorted_every_host mergeSortConfidence⟩

/-- C9 amended: for the remote structured (schema-validated) path the
candidate list always contains only patterns with at least 2 occurrences and
representative sequences of at least `minSequenceLength` (3) events, is sorted
by confidence descending, and has at most 5 entries.  For the local
(`parsePatternResponse`) path the occurrence, sequence-length and length
bounds hold for every response and every conforming host sort; descending
confidence order additionally holds whenever every kept candidate's confidence
(after the `|| 0.75` falsy-defaulting) coerces to a number — with a
non-numeric truthy confidence present the comparator is inconsistent and the
order is implementation-defined. -/
theorem c9_pattern_candidates_amended (S : ConfidenceSort)
    (patterns : List RawPattern) (events : List RawEvent)
    (outcome : LocalParseOutcome) (levents : List RawEvent) :
    ((convertStructuredResponse patterns events).length ≤ 5 ∧
      (∀ d ∈ convertStructuredResponse patterns events,
          2 ≤ d.occurrences ∧ minSequenceLength ≤ d.sequence.length) ∧
      (convertStructuredResponse patterns events).Pairwise
        (fun a b => b.confidence ≤ a.confidence)) ∧
    ((parsePatternResponse S outcome levents).length ≤ 5 ∧
      ∀ d ∈ parsePatternResponse S outcome levents,
        2 ≤ d.occurrences ∧ minSequenceLength ≤ d.sequence.length) ∧
    ((∀ ps, outcome = LocalParseOutcome.patterns ps →
        ∀ d ∈ parsePatternCandidates ps levents, d.confidence.toNum.isSome = true) →
      (parsePatternResponse S outcome levents).Pairwise
        (fun a b => confGEb a.confidence b.confidence = true)) := by
  refine ⟨convertStructuredResponse_props patterns events, ⟨?_, ?_⟩, ?_⟩
  · cases outcome with
    | parseFailure => exact Nat.zero_le 5
    | noPatterns => exact Nat.zero_le 5
    | patterns ps =>
      rw [parsePatternResponse_patterns]
      by_cases hthrow : sliceThrows ps levents = true
      · rw [if_pos hthrow]
        exact Nat.zero_le 5
      · rw [if_neg hthrow]
        rw [List.length_take]
        exact Nat.min_le_left 5 _
  · cases outcome with
    | parseFailure => intro d hd; exact absurd hd (List.not_mem_nil d)
    | noPatterns => intro d hd; exact absurd hd (List.not_mem_nil d)
    | patterns ps =>
      intro d hd
      rw [parsePatternResponse_patterns] at hd
      by_cases hthrow : sliceThrows ps levents = true
      · rw [if_pos hthrow] at hd
        exact absurd hd (List.not_mem_nil d)
      · rw [if_neg hthrow] at hd
        have hd2 : d ∈ S.sort (parsePatternCandidates ps levents) :=
          (List.take_sublist 5 _).subset hd
        have hd3 : d ∈ parsePatternCandidates ps levents :=
          (S.perm (parsePatternCandidates ps levents)).subset hd2
        obtain ⟨hdm, hlen3⟩ := List.mem_filter.mp hd3
        obtain ⟨p, hp, hdp⟩ := List.mem_map.mp hdm
        obtain ⟨hpmem, hp2⟩ := List.mem_filter.mp hp
        refine ⟨?_, of_decide_eq_true hlen3⟩
        rw [← hdp]
        exact of_decide_eq_true hp2
  · intro h
    cases outcome with
    | parseFailure => exact List.Pairwise.nil
    | noPatterns => exact List.Pairwise.nil
    | patterns ps =>
      rw [parsePatternResponse_patterns]
      by_cases hthrow : sliceThrows ps levents = true
      · rw [if_pos hthrow]
        exact List.Pairwise.nil
      · rw [if_neg hthrow]
        exact (S.sorted_of_numeric (parsePatternCandidates ps levents)
          (h ps rfl)).sublist (List.take_sublist 5 _)

/-- C9 amended witness: the remote part at `c9Patterns` over `c9Events`, and
the local part at the all-numeric response `c9GoodPatterns` under the concrete
conforming host sort, discharging the numeric-confidence hypothesis there. -/
theorem c9_pattern_candidates_amended_witness :
    (parsePatternResponse mergeSortConfidence
        (LocalParseOutcome.patterns c9GoodPatterns) c9LocalEvents).Pairwise
      (fun a b => confGEb a.confidence b.confidence = true) ∧
    (parsePatternResponse mergeSortConfidence
        (LocalParseOutcome.patterns c9GoodPatterns) c9LocalEvents).length ≤ 5 ∧
    (convertStructuredResponse c9Patterns c9Events).length ≤ 5 :=
  ⟨(c9_pattern_candidates_amended mergeSortConfidence c9Patterns c9Events
      (LocalParseOutcome.patterns c9GoodPatterns) c9LocalEvents).2.2
    (fun ps h => by
      injection h with h2
      subst h2
      decide),
   (c9_pattern_candidates_amended mergeSortConfidence c9Patterns c9Events
      (LocalParseOutcome.patterns c9GoodPatterns) c9LocalEvents).2.1.1,
   (c9_pattern_candidates_amended mergeSortConfidence c9Patterns c9Events
      (LocalParseOutcome.patterns c9GoodPatterns) c9LocalEvents).1.1⟩
